import Mathlib

/-!
Verification development for the DigiSac ↔ Respond.io custom-channel bridge.

Shallow embedding of the inbound webhook pipeline and its supporting
utilities, translated from the JavaScript sources:

* `src/utils/messageCache` (the `MessageCache` dedup store, shipped with
  `src/utils/validators.js`),
* `src/utils/cache` (`SimpleCache`, per-key TTL timers),
* `src/utils/retryManager.js` (`RetryManager`),
* `src/services/digisac.js` (`processDigiSacFile`),
* `src/services/respond.js` (`processDigiSacMessage`),
* `src/utils/formatters.js` (`formatSuccessResponse` / `formatErrorResponse`),
* the `router.post('/digisac/webhook')` handler of the routes module.

JavaScript `undefined`/missing fields are modelled with `Option`; the `||`
operator's falsiness on strings (`""`) and numbers (`0`) is modelled
explicitly by the `jsOr*` helpers.  External network calls (the Respond.io
send, the DigiSac message-detail and contact lookups, the channel
directory) are modelled as oracle inputs carried by `Env`.
-/

namespace DigisacBridge

/-! ### JavaScript value-level helpers -/

/-- JS `a || b` on two possibly-missing strings: `""` is falsy. -/
def jsOrS (a b : Option String) : Option String :=
  match a with
  | some s => if s = "" then b else some s
  | none => b

/-- JS `x || d` where `x` is a possibly-missing string and `d` a string
default: `undefined` and `""` both fall through to `d`. -/
def jsDefS (a : Option String) (d : String) : String :=
  match a with
  | some s => if s = "" then d else s
  | none => d

/-- JS `a || b` on two possibly-missing numbers: `0` is falsy. -/
def jsOrN (a b : Option Nat) : Option Nat :=
  match a with
  | some n => if n = 0 then b else some n
  | none => b

/-- JS `x || d` for a possibly-missing number with default `d` (`0` falsy). -/
def jsDefN (a : Option Nat) (d : Nat) : Nat :=
  match a with
  | some n => if n = 0 then d else n
  | none => d

/-- Truthiness of a possibly-missing string (`undefined` and `""` falsy). -/
def jsTruthyS (a : Option String) : Bool :=
  match a with
  | some s => decide (s ≠ "")
  | none => false

/-- Rendering of a possibly-missing string inside a JS template literal:
`undefined` prints as `"undefined"`. -/
def jsStr (a : Option String) : String :=
  match a with
  | some s => s
  | none => "undefined"

/-- Character-list prefix test used to model `String.prototype.includes`. -/
def listPrefixChk : List Char → List Char → Bool
  | [], _ => true
  | _ :: _, [] => false
  | a :: as, b :: bs => a = b && listPrefixChk as bs

/-- Character-list infix test used to model `String.prototype.includes`. -/
def listInfixChk (pat : List Char) : List Char → Bool
  | [] => listPrefixChk pat []
  | c :: rest => listPrefixChk pat (c :: rest) || listInfixChk pat rest

/-- JS `s.includes(pat)`. -/
def strContains (s pat : String) : Bool :=
  listInfixChk pat.data s.data

/-- JS `String.prototype.trim`: strip leading and trailing whitespace. -/
def jsTrim (s : String) : String :=
  ⟨((s.data.dropWhile Char.isWhitespace).reverse.dropWhile Char.isWhitespace).reverse⟩

/-! ### Association-list primitives (model of JS `Map` and plain objects) -/

/-- `Map.prototype.get` (first matching key). -/
def lookupA {β : Type} : List (String × β) → String → Option β
  | [], _ => none
  | (k', v) :: rest, k => if k' = k then some v else lookupA rest k

/-- `Map.prototype.set`: overwrite in place, else append. -/
def setAssoc {β : Type} : List (String × β) → String → β → List (String × β)
  | [], k, v => [(k, v)]
  | (k', v') :: rest, k, v =>
    if k' = k then (k, v) :: rest else (k', v') :: setAssoc rest k v

/-- `Map.prototype.delete` (drop the entry with the key). -/
def eraseAssoc {β : Type} : List (String × β) → String → List (String × β)
  | [], _ => []
  | (k', v) :: rest, k =>
    if k' = k then eraseAssoc rest k else (k', v) :: eraseAssoc rest k

/-! ### Inbound message payloads

`MessageData` collects every field of the upstream webhook payload that the
embedded code reads.  All fields are optional, mirroring a free-form JSON
object; `fromF` models the JS field `from` and `altId` models `_id`. -/

/-- A file reference as it appears in the DigiSac payload (`file` object or
an element of the `files` array). -/
structure FileRef where
  url : Option String := none
  name : Option String := none
  mimetype : Option String := none
deriving Repr, DecidableEq

structure MessageData where
  id : Option String := none
  messageId : Option String := none
  altId : Option String := none
  fromF : Option String := none
  fromId : Option String := none
  contactId : Option String := none
  number : Option String := none
  type : Option String := none
  messageType : Option String := none
  timestamp : Option Nat := none
  createdAt : Option Nat := none
  message : Option String := none
  text : Option String := none
  content : Option String := none
  body : Option String := none
  isFromMe : Bool := false
  service_id : Option String := none
  serviceId : Option String := none
  user_id : Option String := none
  userId : Option String := none
  file : Option FileRef := none
  files : Option (List FileRef) := none
deriving Repr, DecidableEq

/-- `messageData.id || messageData.messageId || messageData._id`. -/
def messageIdOf (m : MessageData) : Option String :=
  jsOrS m.id (jsOrS m.messageId m.altId)

/-- `messageData.from || messageData.fromId || messageData.contactId ||
messageData.number`. -/
def fromOf (m : MessageData) : Option String :=
  jsOrS m.fromF (jsOrS m.fromId (jsOrS m.contactId m.number))

/-! ### Dedup cache (`MessageCache`) -/

/-- A character admitted unchanged by `replace(/[^a-zA-Z0-9_]/g, '_')`. -/
def sanitizeChar (c : Char) : Char :=
  if c.isAlphanum || c = '_' then c else '_'

/-- `dataString.replace(/[^a-zA-Z0-9_]/g, '_')`. -/
def sanitizeKey (s : String) : String :=
  ⟨s.data.map sanitizeChar⟩

/-- `content.substring(0, 50)`. -/
def substr50 (s : String) : String :=
  ⟨s.data.take 50⟩

/-- `MessageCache.generateKey`.  `now` stands for `Date.now()`, which the
source uses as the fallback when both `timestamp` and `createdAt` are
absent (or falsy). -/
def generateKey (m : MessageData) (now : Nat) : String :=
  let messageId := jsStr (jsOrS m.id (jsOrS m.messageId m.altId))
  let fromV := jsStr (jsOrS m.fromF (jsOrS m.fromId (jsOrS m.contactId m.number)))
  let timestamp := jsDefN (jsOrN m.timestamp m.createdAt) now
  let content := jsDefS (jsOrS m.message (jsOrS m.text m.content)) ""
  sanitizeKey (messageId ++ "_" ++ fromV ++ "_" ++ toString timestamp ++ "_" ++ substr50 content)

/-- An entry of the dedup cache (observability metadata such as
`webhookId` is not modelled; only the fields the cache logic reads). -/
structure CacheEntryM where
  timestamp : Nat
  messageId : Option String := none
  fromF : Option String := none
deriving Repr, DecidableEq

structure CacheStats where
  hits : Nat := 0
  misses : Nat := 0
  duplicates : Nat := 0
  cleanups : Nat := 0
deriving Repr, DecidableEq

/-- The `MessageCache` singleton state (`ttl` defaults to 5 minutes). -/
structure MessageCache where
  cache : List (String × CacheEntryM) := []
  ttl : Nat := 300000
  stats : CacheStats := {}
deriving Repr, DecidableEq

def emptyMessageCache : MessageCache := {}

/-- `MessageCache.isDuplicate`: pure lookup plus statistics bump; it does
NOT insert anything. -/
def MessageCache.isDuplicate (mc : MessageCache) (now : Nat) (m : MessageData) :
    Bool × MessageCache :=
  let key := generateKey m now
  match lookupA mc.cache key with
  | some cached =>
    if now - cached.timestamp < mc.ttl then
      (true, { mc with stats := { mc.stats with
                 duplicates := mc.stats.duplicates + 1, hits := mc.stats.hits + 1 } })
    else
      (false, { mc with stats := { mc.stats with misses := mc.stats.misses + 1 } })
  | none =>
    (false, { mc with stats := { mc.stats with misses := mc.stats.misses + 1 } })

/-- `MessageCache.cleanup`: drop entries older than the TTL. -/
def MessageCache.cleanup (mc : MessageCache) (now : Nat) : MessageCache :=
  let kept := mc.cache.filter (fun kv => decide (now - kv.2.timestamp ≤ mc.ttl))
  if kept.length < mc.cache.length then
    { mc with cache := kept,
              stats := { mc.stats with cleanups := mc.stats.cleanups + 1 } }
  else
    { mc with cache := kept }

/-- `MessageCache.markAsProcessed`: unconditional store under the
generated key; every 50th entry triggers a cleanup pass. -/
def MessageCache.markAsProcessed (mc : MessageCache) (now : Nat) (m : MessageData) :
    MessageCache :=
  let key := generateKey m now
  let entry : CacheEntryM :=
    { timestamp := now
      messageId := jsOrS m.id (jsOrS m.messageId m.altId)
      fromF := fromOf m }
  let cache2 := setAssoc mc.cache key entry
  let mc2 := { mc with cache := cache2 }
  if cache2.length % 50 = 0 then mc2.cleanup now else mc2

/-! ### TTL cache (`SimpleCache`)

Values are modelled by a small JS-value universe so that the source's
`this.cache.get(key) || null` (which collapses stored falsy values to
`null`) is captured.  `setTimeout` / `clearTimeout` are modelled by an
explicit queue of pending timeouts with ids; firing a timeout runs the
expiry callback (`cache.delete(key); timers.delete(key)`). -/

inductive JSVal where
  | null
  | boolV (b : Bool)
  | numV (n : Int)
  | strV (s : String)
  | objV (oid : Nat)
deriving Repr, DecidableEq

/-- JS truthiness. -/
def JSVal.truthy : JSVal → Bool
  | .null => false
  | .boolV b => b
  | .numV n => decide (n ≠ 0)
  | .strV s => decide (s ≠ "")
  | .objV _ => true

/-- One `setTimeout` registration scheduled by `SimpleCache.set`. -/
structure PendingTimeout where
  tid : Nat
  key : String
  fireTime : Nat
  cancelled : Bool
deriving Repr, DecidableEq

structure SimpleCache where
  cache : List (String × JSVal) := []
  timers : List (String × Nat) := []
  pending : List PendingTimeout := []
  nextId : Nat := 0
deriving Repr, DecidableEq

def emptySimpleCache : SimpleCache := {}

/-- `SimpleCache.set`: clear any existing timer for the key, store the
value, and schedule a fresh expiry `ttlMs` from `now`. -/
def SimpleCache.set (c : SimpleCache) (now : Nat) (key : String) (value : JSVal)
    (ttlMs : Nat := 600000) : SimpleCache :=
  let pending1 :=
    match lookupA c.timers key with
    | some tid => c.pending.map (fun p => if p.tid = tid then { p with cancelled := true } else p)
    | none => c.pending
  { cache := setAssoc c.cache key value
    timers := setAssoc c.timers key c.nextId
    pending := pending1 ++ [{ tid := c.nextId, key := key, fireTime := now + ttlMs, cancelled := false }]
    nextId := c.nextId + 1 }

/-- `SimpleCache.get`: `this.cache.get(key) || null`. -/
def SimpleCache.get (c : SimpleCache) (key : String) : JSVal :=
  match lookupA c.cache key with
  | some v => if v.truthy then v else .null
  | none => .null

/-- The expiry callback of one timeout: `cache.delete(key); timers.delete(key)`. -/
def fireTimeout (c : SimpleCache) (p : PendingTimeout) : SimpleCache :=
  { c with cache := eraseAssoc c.cache p.key, timers := eraseAssoc c.timers p.key }

/-- Event-loop step: run every non-cancelled timeout due at or before `t`. -/
def SimpleCache.runTimersUpTo (c : SimpleCache) (t : Nat) : SimpleCache :=
  let due := c.pending.filter (fun p => !p.cancelled && decide (p.fireTime ≤ t))
  let rest := c.pending.filter (fun p => !(!p.cancelled && decide (p.fireTime ≤ t)))
  due.foldl fireTimeout { c with pending := rest }

/-- Number of pending (scheduled, not cancelled) expiry timeouts for a key. -/
def SimpleCache.activeTimersFor (c : SimpleCache) (key : String) : Nat :=
  (c.pending.filter (fun p => !p.cancelled && decide (p.key = key))).length

/-! ### Retry executor (`RetryManager`) -/

/-- A JS `Error` as inspected by `isRetryableError`: `message`, optional
`code`, and optional `response.status`. -/
structure JsError where
  message : String
  code : Option String := none
  responseStatus : Option Nat := none
deriving Repr, DecidableEq

structure RetryStats where
  totalOperations : Nat := 0
  successOnFirstTry : Nat := 0
  successWithRetry : Nat := 0
  totalFailures : Nat := 0
  retriesUsed : Nat := 0
deriving Repr, DecidableEq

/-- `new RetryManager(3, 1000, 10000)` (the module-level singleton uses
the defaults). -/
structure RetryManager where
  maxRetries : Nat := 3
  baseDelay : Nat := 1000
  maxDelay : Nat := 10000
  stats : RetryStats := {}
deriving Repr, DecidableEq

def defaultRetryManager : RetryManager := {}

/-- The backoff waited after a failed attempt `attempt`:
`Math.min(baseDelay * Math.pow(2, attempt - 1), maxDelay)`. -/
def retryDelay (base cap attempt : Nat) : Nat :=
  min (base * 2 ^ (attempt - 1)) cap

/-- Observable trace of one `executeWithRetry` run: final result, the
number of attempts actually made, and the backoff delays waited. -/
structure RunResult (α : Type) where
  result : Except String α
  attemptsMade : Nat
  delays : List Nat
deriving Repr

/-- The `for (attempt = 1; attempt <= maxRetries; attempt++)` loop of
`executeWithRetry`.  `fuel` is the number of attempts still allowed
(initially `maxRetries`); the operation is re-invoked on every failure,
with a backoff delay whenever attempts remain. -/
def runLoop {α : Type} (maxRetries base cap : Nat) (op : Nat → Except JsError α) :
    Nat → Nat → RunResult α
  | _, 0 =>
    -- a zero-attempt budget never runs the body (unreachable with the
    -- constructor default maxRetries = 3)
    ⟨.error "no attempts", 0, []⟩
  | attempt, fuel + 1 =>
    match op attempt with
    | .ok v => ⟨.ok v, attempt, []⟩
    | .error e =>
      if fuel = 0 then
        ⟨.error ("Operação falhou após " ++ toString maxRetries ++ " tentativas: " ++ e.message),
         attempt, []⟩
      else
        let d := retryDelay base cap attempt
        let r := runLoop maxRetries base cap op (attempt + 1) fuel
        ⟨r.result, r.attemptsMade, d :: r.delays⟩

/-- `RetryManager.executeWithRetry` with its statistics side effects. -/
def RetryManager.executeWithRetry {α : Type} (rm : RetryManager)
    (op : Nat → Except JsError α) : RunResult α × RetryManager :=
  let stats0 := { rm.stats with totalOperations := rm.stats.totalOperations + 1 }
  let r := runLoop rm.maxRetries rm.baseDelay rm.maxDelay op 1 rm.maxRetries
  let stats :=
    match r.result with
    | .ok _ =>
      if r.attemptsMade = 1 then
        { stats0 with successOnFirstTry := stats0.successOnFirstTry + 1 }
      else
        { stats0 with successWithRetry := stats0.successWithRetry + 1,
                      retriesUsed := stats0.retriesUsed + (r.attemptsMade - 1) }
    | .error _ =>
      { stats0 with totalFailures := stats0.totalFailures + 1,
                    retriesUsed := stats0.retriesUsed + (rm.maxRetries - 1) }
  (r, { rm with stats := stats })

/-- The string markers `isRetryableError` searches for. -/
def retryableErrors : List String :=
  ["ECONNRESET", "ECONNREFUSED", "ETIMEDOUT", "ENOTFOUND",
   "socket hang up", "timeout", "Network Error"]

/-- `RetryManager.isRetryableError`. -/
def isRetryableError (e : JsError) : Bool :=
  let msgCheck := retryableErrors.any
    (fun p => strContains e.message p || strContains (jsDefS e.code "") p)
  match e.responseStatus with
  | some status =>
    if status ≠ 0 then decide (500 ≤ status) || decide (status = 429) || decide (status = 408)
    else msgCheck
  | none => msgCheck

/-- The value an HTTP operation settles with: a resolved response object
(`status` / `success` / `error` fields as read by the wrapper) or a
rejection. -/
structure HttpResult where
  status : Option Nat := none
  success : Option Bool := none
  error : Option String := none
deriving Repr, DecidableEq

inductive HttpOutcome where
  | resolve (r : HttpResult)
  | reject (e : JsError)
deriving Repr, DecidableEq

/-- One attempt of the wrapper operation built by `executeHttpWithRetry`:
response-shape check plus the retryable/non-retryable classification of a
thrown error (a non-retryable error is re-thrown wrapped as
`Erro não recuperável: ...`). -/
def httpAttempt (o : HttpOutcome) : Except JsError HttpResult :=
  let inner : Except JsError HttpResult :=
    match o with
    | .resolve r =>
      match r.status with
      | some st =>
        if st ≠ 0 ∧ 200 ≤ st ∧ st < 300 then .ok r
        else
          match r.success with
          | some b =>
            if b then .ok r
            else .error { message := "API retornou erro: " ++ jsDefS r.error "Erro desconhecido" }
          | none => .ok r
      | none =>
        match r.success with
        | some b =>
          if b then .ok r
          else .error { message := "API retornou erro: " ++ jsDefS r.error "Erro desconhecido" }
        | none => .ok r
    | .reject e => .error e
  match inner with
  | .ok r => .ok r
  | .error e =>
    if isRetryableError e then .error e
    else .error { message := "Erro não recuperável: " ++ e.message }

/-- `RetryManager.executeHttpWithRetry`. -/
def RetryManager.executeHttpWithRetry (rm : RetryManager)
    (httpOperation : Nat → HttpOutcome) : RunResult HttpResult × RetryManager :=
  rm.executeWithRetry (fun attempt => httpAttempt (httpOperation attempt))

/-! ### Message processing (`digisac.js` / `respond.js`) -/

/-- An attachment message built by `processDigiSacFile` for Respond.io. -/
structure AttachmentMsg where
  attachType : String
  url : String
  fileName : Option String
  mimeType : String
  description : Option String
deriving Repr, DecidableEq

inductive ProcessedMessage where
  | textMsg (text : String)
  | attachmentMsg (a : AttachmentMsg)
deriving Repr, DecidableEq

/-- `DigiSacApiService.processDigiSacFile`: reads `messageData.files[0]`;
returns `null` when there is no file, no URL, or when building the
attachment throws (reading `mimetype.startsWith` of an undefined
`mimetype`).  A non-null result is always an attachment object. -/
def processDigiSacFile (m : MessageData) : Option AttachmentMsg :=
  let fileOpt : Option FileRef :=
    match m.files with
    | some (f :: _) => some f
    | _ => none
  match fileOpt with
  | none => none
  | some f =>
    if jsTruthyS f.url then
      match f.mimetype with
      | none => none
      | some mt =>
        let attachmentType :=
          if mt.startsWith "image/" then "image"
          else if mt.startsWith "audio/" then "audio"
          else if mt.startsWith "video/" then "video"
          else "file"
        some
          { attachType := attachmentType
            url := jsStr f.url
            fileName := f.name
            mimeType := mt
            description := f.name }
    else none

/-- Result of `RespondIoApiService.processDigiSacMessage`. -/
structure ProcessResult where
  messageBody : String
  processedMessage : Option ProcessedMessage
  ignored : Bool := false
  reason : Option String := none
deriving Repr, DecidableEq

/-- `RespondIoApiService.processDigiSacMessage`. -/
def processDigiSacMessage (m : MessageData) (messageType : String) : ProcessResult :=
  if messageType = "ticket" then
    { messageBody := "", processedMessage := none, ignored := true,
      reason := some "ticket_message_type" }
  else if messageType = "chat" ∨ messageType = "text" then
    let messageBody := jsDefS (jsOrS m.text (jsOrS m.body (jsOrS m.message m.content))) ""
    { messageBody := messageBody, processedMessage := some (.textMsg messageBody) }
  else if ["image", "audio", "ptt", "document", "video"].contains messageType then
    match processDigiSacFile m with
    | some a =>
      { messageBody := "📎 " ++ jsStr a.fileName,
        processedMessage := some (.attachmentMsg a) }
    | none =>
      let messageBody :=
        if messageType = "document" then "📄 Documento: arquivo"
        else if messageType = "ptt" ∨ messageType = "audio" then "🎵 Mensagem de áudio"
        else if messageType = "image" then "🖼️ Imagem"
        else if messageType = "video" then
          "🎥 Vídeo: abrir no digisac ou no whatsapp para ver o vídeo"
        else "📎 Mídia (" ++ messageType ++ ")"
      { messageBody := messageBody, processedMessage := some (.textMsg messageBody) }
  else
    let messageBody :=
      if messageType = "location" then "📍 Localização"
      else if messageType = "contact" then "👤 Contato"
      else if messageType = "sticker" then "😀 Sticker"
      else "📎 Mídia (" ++ messageType ++ ")"
    { messageBody := messageBody, processedMessage := some (.textMsg messageBody) }

/-! ### Response formatters (`formatters.js`) -/

inductive JsonV where
  | s (v : String)
  | n (v : Nat)
  | b (v : Bool)
  | obj (fields : List (String × JsonV))

/-- Field lookup on a JSON object value. -/
def JsonV.field : JsonV → String → Option JsonV
  | .obj kvs, k => lookupA kvs k
  | _, _ => none

/-- `formatSuccessResponse(data, message)`. -/
def formatSuccessResponse (data : Option JsonV) (message : String) : JsonV :=
  .obj ([("status", .s "success"), ("message", .s message)] ++
    (match data with
     | some d => [("data", d)]
     | none => []))

/-- `formatErrorResponse(message, details, status)` (the `status` argument
does not appear in the body). -/
def formatErrorResponse (message : String) (details : Option JsonV) : JsonV :=
  .obj [("error", .obj ([("message", .s message)] ++
    (match details with
     | some d => [("details", d)]
     | none => [])))]

/-! ### Webhook orchestrator (`router.post('/digisac/webhook')`) -/

/-- One row of the channel directory (fields read by the handler). -/
structure ChannelConfig where
  custom_channel_id : String := ""
  custom_channel_token : String := ""
  desc : String := ""
  digisac_service_id : String := ""
  digisac_user_id : Option String := none
deriving Repr, DecidableEq

/-- The settled value of one per-channel delivery
(`retryManager.executeHttpWithRetry(() => sendMessageWithChannelToken(...))`):
either a resolved result object or a thrown error caught by the
per-channel `catch`. -/
structure SendResult where
  success : Bool := false
  error : Option String := none
deriving Repr, DecidableEq

inductive DeliveryOutcome where
  | ok (r : SendResult)
  | exn (msg : String)
deriving Repr, DecidableEq

/-- The per-channel result object assembled inside `channelPromises`
(`return { channelId, vendedor, success: respondResult?.success || false,
error: ... }`, or the `catch` branch's `{ ..., success: false, error }`). -/
structure ChannelResult where
  channelId : String
  vendedor : String
  success : Bool
  error : Option String
deriving Repr, DecidableEq

def mkChannelResult (cfg : ChannelConfig) (out : DeliveryOutcome) : ChannelResult :=
  match out with
  | .ok r =>
    { channelId := cfg.custom_channel_id, vendedor := cfg.desc,
      success := r.success, error := r.error }
  | .exn msg =>
    { channelId := cfg.custom_channel_id, vendedor := cfg.desc,
      success := false, error := some msg }

/-- Outcome of one `executeHttpWithRetry(() =>
digiSacApiService.getMessageWithFile(messageId))` call in the video block:
either it resolves with `{success, data}` or the whole retry wrapper
throws (caught at the surrounding `try`). -/
inductive ApiOutcome where
  | resolved (success : Bool) (data : Option MessageData)
  | thrown (msg : String)
deriving Repr, DecidableEq

/-- `!messageData.file || !messageData.file.url`, negated. -/
def hasFileUrl (m : MessageData) : Bool :=
  match m.file with
  | some f => jsTruthyS f.url
  | none => false

/-- Trace of the video-polling block: the (possibly overwritten) message
data, the number of message-detail re-queries issued, and the fixed
delays (ms) waited, one before each re-query. -/
structure VideoPollResult where
  message : MessageData
  queries : Nat
  delays : List Nat
deriving Repr, DecidableEq

/-- The video block of the webhook handler: 1s delay, first re-query; if
it resolves successfully with data but no file URL, another 1s delay and
a second re-query.  A payload carrying a file URL overwrites
`messageData`; every other outcome leaves it unchanged. -/
def videoPoll (m : MessageData) (q1 q2 : ApiOutcome) : VideoPollResult :=
  match q1 with
  | .thrown _ => ⟨m, 1, [1000]⟩
  | .resolved s1 d1 =>
    match s1, d1 with
    | true, some data1 =>
      if hasFileUrl data1 then ⟨data1, 1, [1000]⟩
      else
        match q2 with
        | .thrown _ => ⟨m, 2, [1000, 1000]⟩
        | .resolved s2 d2 =>
          match s2, d2 with
          | true, some data2 =>
            if hasFileUrl data2 then ⟨data2, 2, [1000, 1000]⟩
            else ⟨m, 2, [1000, 1000]⟩
          | _, _ => ⟨m, 2, [1000, 1000]⟩
    | _, _ => ⟨m, 1, [1000]⟩

/-- `req.body.data`: absent, a single object, or an array of objects. -/
inductive DataField where
  | undef
  | obj (m : MessageData)
  | arr (ms : List MessageData)
deriving Repr, DecidableEq

/-- `req.body` of the webhook request. -/
structure WebhookRequest where
  event : Option String := none
  data : DataField := .undef
deriving Repr, DecidableEq

/-- Oracles for the external collaborators consumed while handling one
webhook request: the channel directory (result of
`getChannelsByServiceId`), the resolved contact phone (the contact
resolution block performs only cached/remote lookups, catches every
error, and never returns early), the two video re-query outcomes, and the
per-channel delivery outcomes.  `now` stands for `Date.now()`. -/
structure Env where
  channelsFor : String → List ChannelConfig
  contactPhone : Option String := none
  q1 : ApiOutcome := .thrown "não consultado"
  q2 : ApiOutcome := .thrown "não consultado"
  deliver : ChannelConfig → DeliveryOutcome
  now : Nat := 0

/-- The terminal branch a webhook request ends in; each constructor is
one `res.status(...).json(...)` site of the handler (`internalError` is
the final `catch`). -/
inductive WebhookOutcome where
  | duplicateIgnored
  | validationFailed (msg : String)
  | ticketIgnored
  | noChannels
  | noRelevantData
  | notMessageEvent
  | mediaUnavailable
  | processIgnored (reason : String)
  | incompleteData
  | dispatched (channelsProcessed successCount errorCount : Nat)
  | internalError (msg : String)
deriving Repr, DecidableEq

/-- The HTTP status sent at each terminal branch: `400` at the
`validateDigiSacWebhook` failure, `200` everywhere else (including the
final `catch`). -/
def httpStatus : WebhookOutcome → Nat
  | .validationFailed _ => 400
  | _ => 200

/-- The JSON body sent at each terminal branch (`webhookId`,
`processingTime` and the internal error detail are request-dependent and
passed in). -/
def responseBody (webhookId : String) (processingTime : Nat) (errDetail : String) :
    WebhookOutcome → JsonV
  | .duplicateIgnored =>
    formatSuccessResponse
      (some (.obj [("webhookId", .s webhookId), ("processingTime", .n processingTime),
        ("status", .s "ignored"), ("reason", .s "Mensagem duplicada")]))
      "Mensagem duplicada ignorada"
  | .validationFailed msg => formatErrorResponse msg none
  | .ticketIgnored =>
    .obj [("status", .s "ignored"),
      ("message", .s "Mensagem do tipo \"ticket\" ignorada"),
      ("messageType", .s "ticket")]
  | .noChannels =>
    .obj [("status", .s "ignored"),
      ("message", .s "Nenhum canal configurado para este service_id")]
  | .noRelevantData => .obj [("status", .s "ignored")]
  | .notMessageEvent => .obj [("status", .s "ignored")]
  | .mediaUnavailable => .obj [("status", .s "ignored")]
  | .processIgnored reason =>
    .obj [("status", .s "ignored"),
      ("message", .s "Mensagem ignorada pelo processamento"), ("reason", .s reason)]
  | .incompleteData =>
    .obj [("status", .s "error"), ("message", .s "Dados incompletos no webhook")]
  | .dispatched cp sc ec =>
    formatSuccessResponse
      (some (.obj [("webhookId", .s webhookId), ("processingTime", .n processingTime),
        ("channelsProcessed", .n cp), ("successCount", .n sc), ("errorCount", .n ec)]))
      "Webhook processado com sucesso"
  | .internalError _ =>
    formatErrorResponse "Erro ao processar webhook" (some (.s errDetail))

/-- Everything observable about one handled request: terminal branch,
per-channel results, the dedup-cache state afterwards, and the
message-detail re-queries (count and delays) issued by the video block. -/
structure WebhookResult where
  outcome : WebhookOutcome
  dispatches : List ChannelResult
  cache : MessageCache
  pollQueries : Nat := 0
  pollDelays : List Nat := []

/-- `messageData.type || messageData.messageType || 'text'`. -/
def msgTypeOf (m : MessageData) : String :=
  jsDefS (jsOrS m.type m.messageType) "text"

/-- `messageData.service_id || messageData.serviceId`. -/
def serviceIdOf (m : MessageData) : Option String :=
  jsOrS m.service_id m.serviceId

/-- `let channelConfigs = []; if (serviceId) channelConfigs = await
getChannelsByServiceId(serviceId);` with the directory lookup as oracle. -/
def channelsOf (env : Env) (m : MessageData) : List ChannelConfig :=
  match serviceIdOf m with
  | some sid => if sid = "" then [] else env.channelsFor sid
  | none => []

/-- `['image','audio','ptt','document'].includes(messageType)` together
with the missing-file test guarding the immediate-ignore branch. -/
def mediaNoFile (m : MessageData) : Bool :=
  (["image", "audio", "ptt", "document"].contains (msgTypeOf m)) && !hasFileUrl m

/-- The video block as reached from the handler (runs only for type
`video` with no file URL). -/
def pipelinePoll (env : Env) (m : MessageData) : VideoPollResult :=
  if msgTypeOf m = "video" ∧ hasFileUrl m = false then videoPoll m env.q1 env.q2
  else ⟨m, 0, []⟩

/-- The full inbound webhook handler, `router.post('/digisac/webhook')`,
from the duplicate check down to the terminal response.  The contact
resolution block sits between the channel lookup and the early
validations; it only performs lookups with every error caught and is
represented by `env.contactPhone`. -/
def digisacWebhook (env : Env) (mc0 : MessageCache) (body : WebhookRequest) :
    WebhookResult :=
  -- `const messageToCheck = Array.isArray(messageData) ? messageData[0] : messageData;`
  let messageToCheck : Option MessageData :=
    match body.data with
    | .arr ms => ms.head?
    | .obj m => some m
    | .undef => none
  match messageToCheck with
  | none =>
    -- `messageCache.isDuplicate(undefined)` reads `.id` of `undefined`:
    -- TypeError, caught by the outer catch, answered with HTTP 200
    ⟨.internalError "Cannot read properties of undefined", [], mc0, 0, []⟩
  | some mtc =>
    let dup := mc0.isDuplicate env.now mtc
    let mc1 := dup.2
    if dup.1 then
      ⟨.duplicateIgnored, [], mc1, 0, []⟩
    else if jsTruthyS body.event = false then
      -- `validateDigiSacWebhook(req.body)` fails: the only non-200 branch
      -- (the `data` field is non-empty here, otherwise the duplicate
      -- check above already threw)
      ⟨.validationFailed "Tipo de evento é obrigatório", [], mc1, 0, []⟩
    else
      -- after array flattening, `messageData` is `messageToCheck`
      let messageId := messageIdOf mtc
      let fromV := fromOf mtc
      let messageType := msgTypeOf mtc
      if messageType = "ticket" then
        ⟨.ticketIgnored, [], mc1, 0, []⟩
      else
        let channelConfigs := channelsOf env mtc
        if channelConfigs.isEmpty then
          ⟨.noChannels, [], mc1, 0, []⟩
        else
          -- contact resolution (oracle, no early return) ...
          if jsTruthyS body.event = false then
            -- `if (!eventType || !messageData)` (unreachable here: the
            -- webhook validation above already required both)
            ⟨.noRelevantData, [], mc1, 0, []⟩
          else if strContains (jsDefS body.event "") "message." = false then
            ⟨.notMessageEvent, [], mc1, 0, []⟩
          else if mediaNoFile mtc then
            ⟨.mediaUnavailable, [], mc1, 0, []⟩
          else
            let poll := pipelinePoll env mtc
            let m2 := poll.message
            let pr := processDigiSacMessage m2 messageType
            if pr.ignored then
              ⟨.processIgnored (jsDefS pr.reason ""), [], mc1, poll.queries, poll.delays⟩
            else if jsTruthyS messageId = false ∨ jsTruthyS fromV = false then
              ⟨.incompleteData, [], mc1, poll.queries, poll.delays⟩
            else if pr.messageBody = "" ∨ jsTrim pr.messageBody = "" then
              -- line `messageBody = ...` assigns to the destructured
              -- `const`: TypeError, caught by the outer catch (HTTP 200)
              ⟨.internalError "Assignment to constant variable.", [], mc1,
               poll.queries, poll.delays⟩
            else
              let results := channelConfigs.map
                (fun cfg => mkChannelResult cfg (env.deliver cfg))
              let successCount := results.countP (fun r => r.success)
              let errorCount := results.countP (fun r => !r.success)
              let mc2 := mc1.markAsProcessed env.now mtc
              ⟨.dispatched channelConfigs.length successCount errorCount, results, mc2,
               poll.queries, poll.delays⟩

/-! ### Concrete data used by witnesses and counterexamples -/

/-- An environment with no subscribed channels and trivially succeeding
deliveries. -/
def envNull : Env := { channelsFor := fun _ => [], deliver := fun _ => .ok {} }

def msgC1 : MessageData :=
  { id := some "m1", fromF := some "c1", text := some "hi", timestamp := some 5 }

/-- A request whose `data` passes the duplicate check but whose `event`
field is missing. -/
def bodyC1 : WebhookRequest := { event := none, data := .obj msgC1 }

def msgC2 : MessageData :=
  { id := some "m1", fromF := some "5511999999999", timestamp := some 7,
    text := some "hello" }

/-- A payload with no `timestamp` and no `createdAt`. -/
def msgC3 : MessageData := { id := some "m1", fromF := some "c1", text := some "oi" }

/-- A permanent client error: HTTP 404. -/
def err404 : JsError :=
  { message := "Request failed with status code 404", responseStatus := some 404 }

/-- An HTTP operation rejecting with 404 on every attempt. -/
def opC4 : Nat → HttpOutcome := fun _ => .reject err404

/-- An operation failing with a retryable (timeout) error on every attempt. -/
def opC8 : Nat → Except JsError Unit := fun _ => .error { message := "ETIMEDOUT" }

def chA : ChannelConfig :=
  { custom_channel_id := "ch1", desc := "v1", digisac_service_id := "svc" }

def chB : ChannelConfig :=
  { custom_channel_id := "ch2", desc := "v2", digisac_service_id := "svc" }

def chC : ChannelConfig :=
  { custom_channel_id := "ch3", desc := "v3", digisac_service_id := "svc" }

/-- Three channels subscribed to `svc`; channel 2's delivery always
throws. -/
def envFan : Env :=
  { channelsFor := fun sid => if sid = "svc" then [chA, chB, chC] else []
    deliver := fun cfg =>
      if cfg.custom_channel_id = "ch2" then .exn "boom" else .ok { success := true } }

def msgChat : MessageData :=
  { id := some "m1", fromF := some "5511999999999", timestamp := some 5,
    type := some "chat", text := some "hello", service_id := some "svc" }

def msgVid : MessageData :=
  { id := some "m1", fromF := some "5511999999999", timestamp := some 5,
    type := some "video", service_id := some "svc" }

/-- Like `envFan` but with both video re-queries resolving without a file
URL. -/
def envVid : Env :=
  { envFan with q1 := .resolved true (some msgVid), q2 := .resolved true (some msgVid) }

def msgTicket : MessageData :=
  { id := some "m1", fromF := some "c1", type := some "ticket" }

def msgImg : MessageData :=
  { id := some "m1", fromF := some "5511999999999", type := some "image",
    service_id := some "svc" }

/-- An environment like `envNull` whose clock stands at 2000 (the
redelivery instant used by the C2 witness). -/
def envC2 : Env :=
  { channelsFor := fun _ => [], deliver := fun _ => .ok {}, now := 2000 }

/-- The entry `markAsProcessed` stores for a message at time `now`. -/
def entryOf (m : MessageData) (now : Nat) : CacheEntryM :=
  { timestamp := now, messageId := jsOrS m.id (jsOrS m.messageId m.altId), fromF := fromOf m }

/-- The dedup-cache state after a missed check and a `markAsProcessed` on
the empty cache. -/
def mcMarked (m : MessageData) (now : Nat) : MessageCache :=
  { cache := [(generateKey m now, entryOf m now)], stats := { misses := 1 } }

/-! ### General-purpose lemmas -/

lemma countP_add_countP_not {α : Type} (p : α → Bool) (l : List α) :
    l.countP p + l.countP (fun a => !p a) = l.length := by
  induction l with
  | nil => simp
  | cons a l ih =>
    by_cases h : p a = true <;>
      simp [List.countP_cons, h, ← ih] <;> omega

lemma webhook_status_cases (o : WebhookOutcome) :
    (∃ msg, o = .validationFailed msg) ∨ httpStatus o = 200 := by
  cases o
  case validationFailed msg => exact Or.inl ⟨msg, rfl⟩
  all_goals exact Or.inr rfl

/-- `isDuplicate` only touches the statistics, never the stored entries
or the TTL. -/
lemma isDuplicate_snd_cache (mc : MessageCache) (now : Nat) (m : MessageData) :
    (mc.isDuplicate now m).2.cache = mc.cache ∧ (mc.isDuplicate now m).2.ttl = mc.ttl := by
  cases h : lookupA mc.cache (generateKey m now) with
  | none => simp [MessageCache.isDuplicate, h]
  | some cached =>
    by_cases h2 : now - cached.timestamp < mc.ttl <;>
      simp [MessageCache.isDuplicate, h, h2]

/-- With a present, non-zero `timestamp` the dedup key does not depend on
the clock. -/
lemma generateKey_time_indep (m : MessageData) (t : Nat) (ht : m.timestamp = some t)
    (ht0 : t ≠ 0) (n1 n2 : Nat) : generateKey m n1 = generateKey m n2 := by
  unfold generateKey
  simp [jsOrN, jsDefN, ht, ht0]

/-- A marked message is classified duplicate within the TTL, provided its
key is clock-independent. -/
lemma isDuplicate_marked (m : MessageData) (now1 now2 : Nat)
    (hkey : generateKey m now2 = generateKey m now1)
    (httl : now2 - now1 < 300000) :
    ((mcMarked m now1).isDuplicate now2 m).1 = true := by
  unfold MessageCache.isDuplicate mcMarked
  simp [hkey, lookupA, entryOf, httl]

/-! Branch lemmas for the webhook handler: each one characterises the
result of `digisacWebhook` on one control path, under the conditions
guarding that path. -/

lemma digisacWebhook_duplicate (env : Env) (mc : MessageCache) (m : MessageData)
    (ev : Option String) (h : (mc.isDuplicate env.now m).1 = true) :
    digisacWebhook env mc { event := ev, data := .obj m } =
      ⟨.duplicateIgnored, [], (mc.isDuplicate env.now m).2, 0, []⟩ := by
  unfold digisacWebhook
  simp [h]

lemma digisacWebhook_ticket (env : Env) (mc : MessageCache) (m : MessageData)
    (ev : Option String)
    (hdup : (mc.isDuplicate env.now m).1 = false)
    (hev : jsTruthyS ev = true)
    (ht : msgTypeOf m = "ticket") :
    digisacWebhook env mc { event := ev, data := .obj m } =
      ⟨.ticketIgnored, [], (mc.isDuplicate env.now m).2, 0, []⟩ := by
  unfold digisacWebhook
  simp [hdup, hev, ht]

lemma digisacWebhook_mediaUnavailable (env : Env) (mc : MessageCache) (m : MessageData)
    (ev : Option String)
    (hdup : (mc.isDuplicate env.now m).1 = false)
    (hev : jsTruthyS ev = true)
    (hnt : msgTypeOf m ≠ "ticket")
    (hch : channelsOf env m ≠ [])
    (hmsg : strContains (jsDefS ev "") "message." = true)
    (hmedia : mediaNoFile m = true) :
    digisacWebhook env mc { event := ev, data := .obj m } =
      ⟨.mediaUnavailable, [], (mc.isDuplicate env.now m).2, 0, []⟩ := by
  unfold digisacWebhook
  simp [hdup, hev, hnt, List.isEmpty_iff, hch, hmsg, hmedia]

lemma digisacWebhook_dispatched (env : Env) (mc : MessageCache) (m : MessageData)
    (ev : Option String)
    (hdup : (mc.isDuplicate env.now m).1 = false)
    (hev : jsTruthyS ev = true)
    (hnt : msgTypeOf m ≠ "ticket")
    (hch : channelsOf env m ≠ [])
    (hmsg : strContains (jsDefS ev "") "message." = true)
    (hmedia : mediaNoFile m = false)
    (hpr : (processDigiSacMessage (pipelinePoll env m).message (msgTypeOf m)).ignored = false)
    (hid : jsTruthyS (messageIdOf m) = true)
    (hfrom : jsTruthyS (fromOf m) = true)
    (hbody : ¬((processDigiSacMessage (pipelinePoll env m).message (msgTypeOf m)).messageBody = "" ∨
        jsTrim (processDigiSacMessage (pipelinePoll env m).message (msgTypeOf m)).messageBody = "")) :
    digisacWebhook env mc { event := ev, data := .obj m } =
      ⟨.dispatched (channelsOf env m).length
          (((channelsOf env m).map (fun cfg => mkChannelResult cfg (env.deliver cfg))).countP
            (fun r => r.success))
          (((channelsOf env m).map (fun cfg => mkChannelResult cfg (env.deliver cfg))).countP
            (fun r => !r.success)),
        (channelsOf env m).map (fun cfg => mkChannelResult cfg (env.deliver cfg)),
        (mc.isDuplicate env.now m).2.markAsProcessed env.now m,
        (pipelinePoll env m).queries, (pipelinePoll env m).delays⟩ := by
  unfold digisacWebhook
  simp [hdup, hev, hnt, List.isEmpty_iff, hch, hmsg, hmedia, hpr, hid, hfrom, hbody]

/-! Lemmas about the video-polling block. -/

lemma videoPoll_budget (m : MessageData) (qa qb : ApiOutcome) :
    (videoPoll m qa qb).queries ≤ 2 ∧
      (videoPoll m qa qb).delays = List.replicate (videoPoll m qa qb).queries 1000 := by
  rcases qa with ⟨s1, d1⟩ | mg
  · cases s1 <;> rcases d1 with _ | data1
    · simp [videoPoll]
    · simp [videoPoll]
    · simp [videoPoll]
    · by_cases h1 : hasFileUrl data1 = true
      · simp [videoPoll, h1]
      · rcases qb with ⟨s2, d2⟩ | mg2
        · cases s2 <;> rcases d2 with _ | data2
          · simp [videoPoll, h1]
          · simp [videoPoll, h1]
          · simp [videoPoll, h1]
          · by_cases h2 : hasFileUrl data2 = true
            · simp [videoPoll, h1, h2]
            · simp [videoPoll, h1, h2]
        · simp [videoPoll, h1]
  · simp [videoPoll]

/-- The poll either leaves `messageData` untouched or overwrites it with
a payload that does carry a file URL. -/
lemma videoPoll_unchanged_or_url (m : MessageData) (qa qb : ApiOutcome) :
    (videoPoll m qa qb).message = m ∨ hasFileUrl (videoPoll m qa qb).message = true := by
  rcases qa with ⟨s1, d1⟩ | mg
  · cases s1 <;> rcases d1 with _ | data1
    · simp [videoPoll]
    · simp [videoPoll]
    · simp [videoPoll]
    · by_cases h1 : hasFileUrl data1 = true
      · simp [videoPoll, h1]
      · rcases qb with ⟨s2, d2⟩ | mg2
        · cases s2 <;> rcases d2 with _ | data2
          · simp [videoPoll, h1]
          · simp [videoPoll, h1]
          · simp [videoPoll, h1]
          · by_cases h2 : hasFileUrl data2 = true
            · simp [videoPoll, h1, h2]
            · simp [videoPoll, h1, h2]
        · simp [videoPoll, h1]
  · simp [videoPoll]

lemma videoPoll_first_hit (m d : MessageData) (qb : ApiOutcome) (h : hasFileUrl d = true) :
    (videoPoll m (.resolved true (some d)) qb).message = d := by
  simp [videoPoll, h]

lemma videoPoll_second_hit (m d d2 : MessageData) (h1 : hasFileUrl d = false)
    (h2 : hasFileUrl d2 = true) :
    (videoPoll m (.resolved true (some d)) (.resolved true (some d2))).message = d2 := by
  simp [videoPoll, h1, h2]

/-- Invariant of the `executeWithRetry` loop: starting from `attempt`
with a positive budget, the run makes at least `attempt` attempts, waits
one backoff delay per non-final failed attempt, and the `j`-th delay is
the backoff of attempt `attempt + j`. -/
lemma runLoop_spec {α : Type} (maxRetries base cap : Nat) (op : Nat → Except JsError α) :
    ∀ fuel attempt, 1 ≤ fuel →
      attempt ≤ (runLoop maxRetries base cap op attempt fuel).attemptsMade ∧
      (runLoop maxRetries base cap op attempt fuel).delays.length =
        (runLoop maxRetries base cap op attempt fuel).attemptsMade - attempt ∧
      ∀ j, j < (runLoop maxRetries base cap op attempt fuel).delays.length →
        (runLoop maxRetries base cap op attempt fuel).delays.getD j 0 =
          retryDelay base cap (attempt + j) := by
  intro fuel
  induction fuel with
  | zero => intro _ h; omega
  | succ f ih =>
    intro attempt _
    cases hop : op attempt with
    | ok v =>
      simp [runLoop, hop]
    | error e =>
      by_cases hf : f = 0
      · subst hf
        simp [runLoop, hop]
      · have ihm := ih (attempt + 1) (by omega)
        simp only [runLoop, hop, hf, if_false]
        refine ⟨by omega, by simp; omega, ?_⟩
        intro j hj
        cases j with
        | zero => simp [retryDelay]
        | succ jj =>
          simp only [List.getD_cons_succ]
          have := ihm.2.2 jj (by simp at hj; omega)
          rw [this]
          congr 1
          omega

/-! Association-list and timeout-queue lemmas for the TTL cache. -/

lemma lookupA_setAssoc_self {β : Type} (l : List (String × β)) (k : String) (v : β) :
    lookupA (setAssoc l k v) k = some v := by
  induction l with
  | nil => simp [setAssoc, lookupA]
  | cons q rest ih =>
    obtain ⟨k', v'⟩ := q
    by_cases h : k' = k
    · simp [setAssoc, h, lookupA]
    · simp [setAssoc, h, lookupA, ih]

lemma lookupA_eraseAssoc_self {β : Type} (l : List (String × β)) (k : String) :
    lookupA (eraseAssoc l k) k = none := by
  induction l with
  | nil => rfl
  | cons q rest ih =>
    obtain ⟨k', v'⟩ := q
    by_cases h : k' = k
    · simp [eraseAssoc, h, ih]
    · simp [eraseAssoc, h, lookupA, ih]

lemma lookupA_eraseAssoc_ne {β : Type} (l : List (String × β)) (k k' : String)
    (h : k' ≠ k) : lookupA (eraseAssoc l k') k = lookupA l k := by
  induction l with
  | nil => rfl
  | cons q rest ih =>
    obtain ⟨k0, v0⟩ := q
    by_cases h0 : k0 = k'
    · subst h0
      simp [eraseAssoc, lookupA, h, ih]
    · by_cases h1 : k0 = k
      · subst h1
        simp [eraseAssoc, h0, lookupA]
      · simp [eraseAssoc, h0, lookupA, h1, ih]

lemma lookupA_eraseAssoc_none {β : Type} (l : List (String × β)) (k k' : String)
    (h : lookupA l k = none) : lookupA (eraseAssoc l k') k = none := by
  by_cases hk : k' = k
  · subst hk; exact lookupA_eraseAssoc_self l k'
  · rw [lookupA_eraseAssoc_ne l k k' hk]; exact h

/-- Firing timeouts never resurrects a missing cache entry. -/
lemma foldl_fire_none (ps : List PendingTimeout) (c : SimpleCache) (k : String)
    (h : lookupA c.cache k = none) :
    lookupA (ps.foldl fireTimeout c).cache k = none := by
  induction ps generalizing c with
  | nil => exact h
  | cons p ps ih => exact ih _ (lookupA_eraseAssoc_none _ _ _ h)

/-- Firing a batch that contains a timeout for `k` deletes `k`. -/
lemma foldl_fire_mem (ps : List PendingTimeout) (c : SimpleCache) (k : String)
    (h : ∃ p ∈ ps, p.key = k) :
    lookupA (ps.foldl fireTimeout c).cache k = none := by
  induction ps generalizing c with
  | nil => rcases h with ⟨p, hp, _⟩; cases hp
  | cons p ps ih =>
    rcases h with ⟨q, hq, hkq⟩
    rcases List.mem_cons.mp hq with rfl | hq2
    · refine foldl_fire_none ps _ k ?_
      rw [← hkq]
      exact lookupA_eraseAssoc_self _ _
    · exact ih _ ⟨q, hq2, hkq⟩

/-- Firing a batch with no timeout for `k` leaves `k`'s entry alone. -/
lemma foldl_fire_keep (ps : List PendingTimeout) (c : SimpleCache) (k : String)
    (h : ∀ p ∈ ps, p.key ≠ k) :
    lookupA (ps.foldl fireTimeout c).cache k = lookupA c.cache k := by
  induction ps generalizing c with
  | nil => rfl
  | cons p ps ih =>
    rw [List.foldl_cons, ih _ (fun q hq => h q (List.mem_cons_of_mem _ hq))]
    exact lookupA_eraseAssoc_ne _ _ _ (h p (List.mem_cons_self _ _))

/-- Advancing time past a live (scheduled, non-cancelled) timeout for `k`
expires `k`. -/
lemma get_runTimers_of_mem (c : SimpleCache) (k : String) (t : Nat)
    (h : ∃ p ∈ c.pending, p.cancelled = false ∧ p.fireTime ≤ t ∧ p.key = k) :
    (c.runTimersUpTo t).get k = .null := by
  simp only [SimpleCache.runTimersUpTo]
  rcases h with ⟨p, hp, hnc, hft, hkp⟩
  have hmem : p ∈ c.pending.filter (fun p => !p.cancelled && decide (p.fireTime ≤ t)) := by
    rw [List.mem_filter]
    exact ⟨hp, by simp [hnc, hft]⟩
  have hnone := foldl_fire_mem _
    { c with pending := c.pending.filter (fun p => !(!p.cancelled && decide (p.fireTime ≤ t))) }
    k ⟨p, hmem, hkp⟩
  simp only [SimpleCache.get]
  rw [hnone]

lemma filter_key_nil (l : List PendingTimeout) (k : String)
    (h : ∀ p ∈ l, p.key ≠ k) :
    l.filter (fun p => !p.cancelled && decide (p.key = k)) = [] := by
  rw [List.filter_eq_nil_iff]
  intro p hp
  simp [h p hp]

/-! # Claim theorems -/

/-- C1 (counterexample): a request whose `data` is present (so the
duplicate check does not throw) but whose `event` field is missing takes
the `validateDigiSacWebhook` failure branch and is answered with HTTP
400, not 200. -/
theorem C1_counterexample :
    (digisacWebhook envNull emptyMessageCache bodyC1).outcome =
        .validationFailed "Tipo de evento é obrigatório" ∧
      httpStatus (digisacWebhook envNull emptyMessageCache bodyC1).outcome ≠ 200 := by
  exact ⟨rfl, by decide⟩

/-- C1 (amended): every terminal branch of the webhook handler —
`Ignored`, `Dispatched`, or internal-error — is answered with HTTP 200,
with the single exception of the webhook-shape validation failure
(request passing the duplicate check with a missing/empty `event`
field), which is answered with HTTP 400. -/
theorem C1_amended (env : Env) (mc : MessageCache) (body : WebhookRequest) :
    (∃ msg, (digisacWebhook env mc body).outcome = .validationFailed msg) ∨
      httpStatus (digisacWebhook env mc body).outcome = 200 :=
  webhook_status_cases _

/-- C2 (counterexample): `isDuplicate` has no marking side effect, so two
consecutive dedup checks of the same fresh event both return `false`; the
second does not return `true` as claimed. -/
theorem C2_counterexample :
    (emptyMessageCache.isDuplicate 1000 msgC2).1 = false ∧
      ((emptyMessageCache.isDuplicate 1000 msgC2).2.isDuplicate 1000 msgC2).1 = false := by
  decide

/-- C2 (amended): for an event carrying a (non-zero) `timestamp`, the
dedup check returns `false` on first encounter; after
`markAsProcessed(E)`, a structurally identical redelivery within the TTL
is classified duplicate, and the webhook handler answers it with the
duplicate-ignored branch and performs no downstream dispatch. -/
theorem C2_amended (m : MessageData) (t now1 now2 : Nat) (env : Env) (ev : Option String)
    (ht : m.timestamp = some t) (ht0 : t ≠ 0) (httl : now2 - now1 < 300000)
    (hnow : env.now = now2) :
    (emptyMessageCache.isDuplicate now1 m).1 = false ∧
    (((emptyMessageCache.isDuplicate now1 m).2.markAsProcessed now1 m).isDuplicate now2 m).1
        = true ∧
    (digisacWebhook env ((emptyMessageCache.isDuplicate now1 m).2.markAsProcessed now1 m)
        { event := ev, data := .obj m }).outcome = .duplicateIgnored ∧
    (digisacWebhook env ((emptyMessageCache.isDuplicate now1 m).2.markAsProcessed now1 m)
        { event := ev, data := .obj m }).dispatches = [] := by
  have hkey : generateKey m now2 = generateKey m now1 :=
    generateKey_time_indep m t ht ht0 now2 now1
  have hmark : (emptyMessageCache.isDuplicate now1 m).2.markAsProcessed now1 m
      = mcMarked m now1 := rfl
  have hdupm : ((mcMarked m now1).isDuplicate env.now m).1 = true := by
    rw [hnow]; exact isDuplicate_marked m now1 now2 hkey httl
  have hweb := digisacWebhook_duplicate env (mcMarked m now1) m ev hdupm
  refine ⟨rfl, ?_, ?_, ?_⟩
  · rw [hmark]
    exact isDuplicate_marked m now1 now2 hkey httl
  · rw [hmark, hweb]
  · rw [hmark, hweb]

/-- C2 witness: a concrete event (with a timestamp) marked at t=1000 and
redelivered at t=2000 is classified duplicate, and the webhook answers
the redelivery with the duplicate-ignored branch and no dispatch. -/
theorem C2_amended_witness :
    (emptyMessageCache.isDuplicate 1000 msgC2).1 = false ∧
    (((emptyMessageCache.isDuplicate 1000 msgC2).2.markAsProcessed 1000 msgC2).isDuplicate
        2000 msgC2).1 = true ∧
    (digisacWebhook envC2
        ((emptyMessageCache.isDuplicate 1000 msgC2).2.markAsProcessed 1000 msgC2)
        { event := some "message.created", data := .obj msgC2 }).outcome =
      .duplicateIgnored ∧
    (digisacWebhook envC2
        ((emptyMessageCache.isDuplicate 1000 msgC2).2.markAsProcessed 1000 msgC2)
        { event := some "message.created", data := .obj msgC2 }).dispatches = [] :=
  C2_amended msgC2 7 1000 2000 envC2 (some "message.created") rfl (by decide) (by decide) rfl

/-- C3 (code evaluation): for a payload with no `timestamp`/`createdAt`,
the dedup key embeds the current clock, so the same payload processed at
two different instants yields two different keys, and a redelivery after
`markAsProcessed` is never classified duplicate — refuting the claimed
clock-independence of the fingerprint. -/
theorem C3_code_eval :
    generateKey msgC3 1000 ≠ generateKey msgC3 2000 ∧
      ((emptyMessageCache.markAsProcessed 1000 msgC3).isDuplicate 2000 msgC3).1 = false := by
  decide

/-- C4 (code evaluation): an operation rejecting with HTTP 404 (classified
non-retryable by `isRetryableError`) is nevertheless attempted
`maxRetries = 3` times by `executeHttpWithRetry`, with backoff delays of
1000ms and 2000ms — the classifier only rewrites the error message, and
`executeWithRetry` retries every failure; there is no fail-fast path. -/
theorem C4_code_eval :
    isRetryableError err404 = false ∧
    (defaultRetryManager.executeHttpWithRetry opC4).1.attemptsMade = 3 ∧
    (defaultRetryManager.executeHttpWithRetry opC4).1.delays = [1000, 2000] ∧
    (defaultRetryManager.executeHttpWithRetry opC4).1.result =
      .error ("Operação falhou após 3 tentativas: " ++
        "Erro não recuperável: Request failed with status code 404") :=
  ⟨rfl, rfl, rfl, rfl⟩

/-- C5: for an event reaching the fan-out with the non-empty resolved
channel list, the dispatcher issues one delivery per channel, settles
them all, and aggregates per-channel results with `successCount +
errorCount = N`; a failed delivery (thrown or unsuccessful) only affects
its own entry, and the webhook still answers HTTP 200 with the per-event
counts. -/
theorem C5_fanout (env : Env) (mc : MessageCache) (m : MessageData) (ev : Option String)
    (sid : String)
    (hdup : (mc.isDuplicate env.now m).1 = false)
    (hev : jsTruthyS ev = true)
    (hmsg : strContains (jsDefS ev "") "message." = true)
    (hnt : msgTypeOf m ≠ "ticket")
    (hsid : serviceIdOf m = some sid) (hsid0 : sid ≠ "")
    (hch : env.channelsFor sid ≠ [])
    (hmedia : mediaNoFile m = false)
    (hpr : (processDigiSacMessage (pipelinePoll env m).message (msgTypeOf m)).ignored = false)
    (hid : jsTruthyS (messageIdOf m) = true)
    (hfrom : jsTruthyS (fromOf m) = true)
    (hbody : ¬((processDigiSacMessage (pipelinePoll env m).message (msgTypeOf m)).messageBody = "" ∨
        jsTrim (processDigiSacMessage (pipelinePoll env m).message (msgTypeOf m)).messageBody = "")) :
    (digisacWebhook env mc { event := ev, data := .obj m }).dispatches =
        (env.channelsFor sid).map (fun cfg => mkChannelResult cfg (env.deliver cfg)) ∧
    (digisacWebhook env mc { event := ev, data := .obj m }).outcome =
        .dispatched (env.channelsFor sid).length
          (((env.channelsFor sid).map (fun cfg => mkChannelResult cfg (env.deliver cfg))).countP
            (fun r => r.success))
          (((env.channelsFor sid).map (fun cfg => mkChannelResult cfg (env.deliver cfg))).countP
            (fun r => !r.success)) ∧
    ((env.channelsFor sid).map (fun cfg => mkChannelResult cfg (env.deliver cfg))).countP
        (fun r => r.success) +
      ((env.channelsFor sid).map (fun cfg => mkChannelResult cfg (env.deliver cfg))).countP
        (fun r => !r.success) = (env.channelsFor sid).length ∧
    httpStatus (digisacWebhook env mc { event := ev, data := .obj m }).outcome = 200 := by
  have hchl : channelsOf env m = env.channelsFor sid := by
    simp [channelsOf, hsid, hsid0]
  have hchne : channelsOf env m ≠ [] := by rw [hchl]; exact hch
  have hd := digisacWebhook_dispatched env mc m ev hdup hev hnt hchne hmsg hmedia hpr
    hid hfrom hbody
  rw [hd, hchl]
  refine ⟨rfl, rfl, ?_, rfl⟩
  rw [countP_add_countP_not]
  exact List.length_map _ _

/-- C5 witness: three channels subscribed to `svc`, channel 2's delivery
always throws; the dispatcher still completes and reports
`successCount = 2, errorCount = 1`. -/
theorem C5_fanout_witness :
    (digisacWebhook envFan emptyMessageCache
      { event := some "message.created", data := .obj msgChat }).outcome =
      .dispatched 3 2 1 := by
  have h := C5_fanout envFan emptyMessageCache msgChat (some "message.created") "svc"
    (by decide) (by decide) (by decide) (by decide) (by decide) (by decide) (by decide)
    (by decide) (by decide) (by decide) (by decide) (by decide)
  exact h.2.1.trans (by decide)

/-- C6: for a video event with no asset URL, the handler issues at most
two message-detail re-queries, each preceded by a fixed 1000ms delay; a
re-query payload carrying a file URL overwrites the event's fields; and
when the poll leaves the asset absent, the message data is unchanged, the
pipeline proceeds with the textual video fallback (it does not fail the
request), and the webhook answers HTTP 200 with the dispatch counts. -/
theorem C6_videoPoll (env : Env) (mc : MessageCache) (m : MessageData) (ev : Option String)
    (sid : String)
    (hv : msgTypeOf m = "video")
    (hfu : hasFileUrl m = false)
    (hfiles : m.files = none)
    (hdup : (mc.isDuplicate env.now m).1 = false)
    (hev : jsTruthyS ev = true)
    (hmsg : strContains (jsDefS ev "") "message." = true)
    (hsid : serviceIdOf m = some sid) (hsid0 : sid ≠ "")
    (hch : env.channelsFor sid ≠ [])
    (hid : jsTruthyS (messageIdOf m) = true)
    (hfrom : jsTruthyS (fromOf m) = true) :
    (∀ qa qb, (videoPoll m qa qb).queries ≤ 2 ∧
      (videoPoll m qa qb).delays = List.replicate (videoPoll m qa qb).queries 1000) ∧
    (∀ qb d, hasFileUrl d = true →
      (videoPoll m (.resolved true (some d)) qb).message = d) ∧
    (∀ d d2, hasFileUrl d = false → hasFileUrl d2 = true →
      (videoPoll m (.resolved true (some d)) (.resolved true (some d2))).message = d2) ∧
    (hasFileUrl (videoPoll m env.q1 env.q2).message = false →
      (videoPoll m env.q1 env.q2).message = m ∧
      (processDigiSacMessage m "video").messageBody =
        "🎥 Vídeo: abrir no digisac ou no whatsapp para ver o vídeo" ∧
      (processDigiSacMessage m "video").ignored = false ∧
      (digisacWebhook env mc { event := ev, data := .obj m }).outcome =
        .dispatched (env.channelsFor sid).length
          (((env.channelsFor sid).map (fun cfg => mkChannelResult cfg (env.deliver cfg))).countP
            (fun r => r.success))
          (((env.channelsFor sid).map (fun cfg => mkChannelResult cfg (env.deliver cfg))).countP
            (fun r => !r.success)) ∧
      httpStatus (digisacWebhook env mc { event := ev, data := .obj m }).outcome = 200 ∧
      (digisacWebhook env mc { event := ev, data := .obj m }).pollQueries =
        (videoPoll m env.q1 env.q2).queries ∧
      (digisacWebhook env mc { event := ev, data := .obj m }).pollDelays =
        List.replicate (videoPoll m env.q1 env.q2).queries 1000) := by
  refine ⟨videoPoll_budget m, fun qb d h => videoPoll_first_hit m d qb h,
    fun d d2 h1 h2 => videoPoll_second_hit m d d2 h1 h2, fun habs => ?_⟩
  have hpm : (videoPoll m env.q1 env.q2).message = m := by
    rcases videoPoll_unchanged_or_url m env.q1 env.q2 with h | h
    · exact h
    · rw [h] at habs
      exact absurd habs (by decide)
  have hpoll : pipelinePoll env m = videoPoll m env.q1 env.q2 := by
    simp [pipelinePoll, hv, hfu]
  have hpf : processDigiSacFile m = none := by
    simp [processDigiSacFile, hfiles]
  have hmb : (processDigiSacMessage m "video").messageBody =
      "🎥 Vídeo: abrir no digisac ou no whatsapp para ver o vídeo" := by
    simp [processDigiSacMessage, hpf]
  have hig : (processDigiSacMessage m "video").ignored = false := by
    simp [processDigiSacMessage, hpf]
  have hnt : msgTypeOf m ≠ "ticket" := by rw [hv]; decide
  have hmedia : mediaNoFile m = false := by
    unfold mediaNoFile
    rw [hv, hfu]
    rfl
  have hchl : channelsOf env m = env.channelsFor sid := by
    simp [channelsOf, hsid, hsid0]
  have hchne : channelsOf env m ≠ [] := by rw [hchl]; exact hch
  have hpr : (processDigiSacMessage (pipelinePoll env m).message (msgTypeOf m)).ignored
      = false := by
    rw [hpoll, hpm, hv]
    exact hig
  have hbody : ¬((processDigiSacMessage (pipelinePoll env m).message (msgTypeOf m)).messageBody
        = "" ∨
      jsTrim (processDigiSacMessage (pipelinePoll env m).message (msgTypeOf m)).messageBody
        = "") := by
    rw [hpoll, hpm, hv, hmb]
    decide
  have hd := digisacWebhook_dispatched env mc m ev hdup hev hnt hchne hmsg hmedia hpr
    hid hfrom hbody
  rw [hd, hchl]
  have hbud := (videoPoll_budget m env.q1 env.q2).2
  refine ⟨hpm, hmb, hig, rfl, rfl, ?_, ?_⟩
  · show (pipelinePoll env m).queries = (videoPoll m env.q1 env.q2).queries
    rw [hpoll]
  · show (pipelinePoll env m).delays = List.replicate (videoPoll m env.q1 env.q2).queries 1000
    rw [hpoll]
    exact hbud

/-- C6 witness: both re-queries resolve without a file URL; the event is
still dispatched (as the fallback text) to the three channels after two
re-queries with a 1000ms delay before each. -/
theorem C6_videoPoll_witness :
    (digisacWebhook envVid emptyMessageCache
      { event := some "message.created", data := .obj msgVid }).outcome =
        .dispatched 3 2 1 ∧
    (digisacWebhook envVid emptyMessageCache
      { event := some "message.created", data := .obj msgVid }).pollQueries = 2 ∧
    (digisacWebhook envVid emptyMessageCache
      { event := some "message.created", data := .obj msgVid }).pollDelays = [1000, 1000] := by
  have h := C6_videoPoll envVid emptyMessageCache msgVid (some "message.created") "svc"
    (by decide) (by decide) (by decide) (by decide) (by decide) (by decide) (by decide)
    (by decide) (by decide) (by decide) (by decide)
  have h4 := h.2.2.2 (by decide)
  refine ⟨h4.2.2.2.1.trans (by decide), ?_, ?_⟩
  · exact h4.2.2.2.2.2.1.trans (by decide)
  · exact h4.2.2.2.2.2.2.trans (by decide)

/-- C7: a non-video media event (image, audio, ptt, document) with no
file URL is classified unavailable immediately — zero message-detail
re-queries — and the webhook answers HTTP 200 with body
`{status: "ignored"}` and performs no downstream dispatch. -/
theorem C7_media (env : Env) (mc : MessageCache) (m : MessageData) (ev : Option String)
    (sid : String)
    (hdup : (mc.isDuplicate env.now m).1 = false)
    (hev : jsTruthyS ev = true)
    (hmsg : strContains (jsDefS ev "") "message." = true)
    (hsid : serviceIdOf m = some sid) (hsid0 : sid ≠ "")
    (hch : env.channelsFor sid ≠ [])
    (htype : (["image", "audio", "ptt", "document"].contains (msgTypeOf m)) = true)
    (hfu : hasFileUrl m = false) :
    (digisacWebhook env mc { event := ev, data := .obj m }).outcome = .mediaUnavailable ∧
    httpStatus (digisacWebhook env mc { event := ev, data := .obj m }).outcome = 200 ∧
    (digisacWebhook env mc { event := ev, data := .obj m }).dispatches = [] ∧
    (digisacWebhook env mc { event := ev, data := .obj m }).pollQueries = 0 ∧
    ∀ wid pt ed, responseBody wid pt ed .mediaUnavailable =
      .obj [("status", .s "ignored")] := by
  have hnt : msgTypeOf m ≠ "ticket" := by
    intro h
    rw [h] at htype
    exact absurd htype (by decide)
  have hchl : channelsOf env m = env.channelsFor sid := by
    simp [channelsOf, hsid, hsid0]
  have hchne : channelsOf env m ≠ [] := by rw [hchl]; exact hch
  have hmedia : mediaNoFile m = true := by
    unfold mediaNoFile
    rw [htype, hfu]
    rfl
  rw [digisacWebhook_mediaUnavailable env mc m ev hdup hev hnt hchne hmsg hmedia]
  exact ⟨rfl, rfl, rfl, rfl, fun _ _ _ => rfl⟩

/-- C7 witness: an image event with no file URL is ignored with no
dispatch. -/
theorem C7_media_witness :
    (digisacWebhook envFan emptyMessageCache
      { event := some "message.created", data := .obj msgImg }).outcome = .mediaUnavailable ∧
    (digisacWebhook envFan emptyMessageCache
      { event := some "message.created", data := .obj msgImg }).dispatches = [] := by
  have h := C7_media envFan emptyMessageCache msgImg (some "message.created") "svc"
    (by decide) (by decide) (by decide) (by decide) (by decide) (by decide) (by decide)
    (by decide)
  exact ⟨h.1, h.2.2.1⟩

/-- C10: an inbound event whose message type resolves to `ticket` is
answered with HTTP 200 and the body `{status: "ignored", ...,
messageType: "ticket"}`, with zero downstream dispatch calls. -/
theorem C10_ticket (env : Env) (mc : MessageCache) (m : MessageData) (ev : Option String)
    (hdup : (mc.isDuplicate env.now m).1 = false)
    (hev : jsTruthyS ev = true)
    (ht : msgTypeOf m = "ticket") :
    (digisacWebhook env mc { event := ev, data := .obj m }).outcome = .ticketIgnored ∧
    httpStatus (digisacWebhook env mc { event := ev, data := .obj m }).outcome = 200 ∧
    (digisacWebhook env mc { event := ev, data := .obj m }).dispatches = [] ∧
    ∀ wid pt ed,
      (responseBody wid pt ed .ticketIgnored).field "status" = some (.s "ignored") ∧
      (responseBody wid pt ed .ticketIgnored).field "messageType" = some (.s "ticket") := by
  rw [digisacWebhook_ticket env mc m ev hdup hev ht]
  exact ⟨rfl, rfl, rfl, fun _ _ _ => ⟨rfl, rfl⟩⟩

/-- C10 witness: a concrete ticket event is ignored with no dispatch. -/
theorem C10_ticket_witness :
    (digisacWebhook envFan emptyMessageCache
      { event := some "message.created", data := .obj msgTicket }).outcome = .ticketIgnored ∧
    (digisacWebhook envFan emptyMessageCache
      { event := some "message.created", data := .obj msgTicket }).dispatches = [] := by
  have h := C10_ticket envFan emptyMessageCache msgTicket (some "message.created")
    (by decide) (by decide) (by decide)
  exact ⟨h.1, h.2.2.1⟩

/-- C8: in any `executeWithRetry` run, the backoff waited after failed
attempt `k` (equivalently, before attempt `k + 1`) equals
`min(baseDelay * 2^(k-1), maxDelay)`; this delay is non-decreasing in the
attempt number and never exceeds the cap. -/
theorem C8_backoff {α : Type} (rm : RetryManager) (op : Nat → Except JsError α) (k : Nat)
    (h1 : 1 ≤ k) (hk : k < ((rm.executeWithRetry op).1).attemptsMade) :
    ((rm.executeWithRetry op).1).delays.getD (k - 1) 0 =
      min (rm.baseDelay * 2 ^ (k - 1)) rm.maxDelay ∧
    (∀ j, k ≤ j →
      retryDelay rm.baseDelay rm.maxDelay k ≤ retryDelay rm.baseDelay rm.maxDelay j) ∧
    retryDelay rm.baseDelay rm.maxDelay k ≤ rm.maxDelay := by
  have hr : (rm.executeWithRetry op).1 =
      runLoop rm.maxRetries rm.baseDelay rm.maxDelay op 1 rm.maxRetries := rfl
  rcases Nat.eq_zero_or_pos rm.maxRetries with h0 | hpos
  · rw [hr, h0] at hk
    simp [runLoop] at hk
  · have hs := runLoop_spec rm.maxRetries rm.baseDelay rm.maxDelay op rm.maxRetries 1 hpos
    have hlen := hs.2.1
    rw [hr] at hk ⊢
    refine ⟨?_, ?_, Nat.min_le_right _ _⟩
    · have hj := hs.2.2 (k - 1) (by omega)
      rw [hj]
      have hkk : 1 + (k - 1) = k := by omega
      rw [hkk, retryDelay]
    · intro j hj
      unfold retryDelay
      exact min_le_min
        (Nat.mul_le_mul_left _ (Nat.pow_le_pow_right (by norm_num) (by omega)))
        (le_refl _)

/-- C8 witness: with the default manager and an always-failing (timeout)
operation, the delay after attempt 1 is `min(1000 * 2^0, 10000) = 1000`. -/
theorem C8_backoff_witness :
    ((defaultRetryManager.executeWithRetry opC8).1).delays.getD 0 0 =
      min (1000 * 2 ^ 0) 10000 ∧
    (∀ j, 1 ≤ j → retryDelay 1000 10000 1 ≤ retryDelay 1000 10000 j) ∧
    retryDelay 1000 10000 1 ≤ 10000 :=
  C8_backoff defaultRetryManager opC8 1 (by decide) (by decide)

/-- C9 (counterexample): `get` is `cache.get(key) || null`, so a stored
falsy value — here the number `0` — is returned as `null` immediately
after `set`, refuting "get(k) returns v" for every value `v`. -/
theorem C9_counterexample :
    (emptySimpleCache.set 0 "k" (JSVal.numV 0) 600000).get "k" = JSVal.null ∧
      JSVal.null ≠ JSVal.numV 0 := by
  decide

/-- C9 (amended): for every truthy value `v`, `set(k,v,ttl)` then `get(k)`
returns `v`; `get(k)` returns the not-found value `null` once the expiry
timer has fired after `ttl` elapsed; `set(k,v2,ttl2)` before expiry
replaces the value (for truthy `v2`) and cancels the previously scheduled
expiry, so exactly one pending expiry timeout exists for the key and the
old expiry instant no longer clears it.  (For falsy stored values `get`
returns `null` even before expiry — see the counterexample.) -/
theorem C9_amended (c : SimpleCache) (k : String) (v v2 : JSVal)
    (now ttl now2 ttl2 t : Nat)
    (hv : v.truthy = true) (hv2 : v2.truthy = true)
    (hk : ∀ p ∈ c.pending, p.key ≠ k)
    (htk : lookupA c.timers k = none)
    (ht : now + ttl ≤ t)
    (_hbe : now2 < now + ttl)
    (hord : now + ttl < now2 + ttl2) :
    (c.set now k v ttl).get k = v ∧
    ((c.set now k v ttl).runTimersUpTo t).get k = JSVal.null ∧
    ((c.set now k v ttl).set now2 k v2 ttl2).get k = v2 ∧
    (c.set now k v ttl).activeTimersFor k = 1 ∧
    ((c.set now k v ttl).set now2 k v2 ttl2).activeTimersFor k = 1 ∧
    (((c.set now k v ttl).set now2 k v2 ttl2).runTimersUpTo (now + ttl)).get k = v2 := by
  have hpend : (c.set now k v ttl).pending =
      c.pending ++ [{ tid := c.nextId, key := k, fireTime := now + ttl, cancelled := false }] := by
    simp [SimpleCache.set, htk]
  have hpend2 : ((c.set now k v ttl).set now2 k v2 ttl2).pending =
      (c.pending.map (fun p =>
          if p.tid = c.nextId then { p with cancelled := true } else p) ++
        [{ tid := c.nextId, key := k, fireTime := now + ttl, cancelled := true }]) ++
      [{ tid := c.nextId + 1, key := k, fireTime := now2 + ttl2, cancelled := false }] := by
    simp [SimpleCache.set, htk, lookupA_setAssoc_self]
  have ha : (c.set now k v ttl).get k = v := by
    simp [SimpleCache.set, SimpleCache.get, lookupA_setAssoc_self, hv]
  have hb : ((c.set now k v ttl).runTimersUpTo t).get k = JSVal.null := by
    refine get_runTimers_of_mem _ k t
      ⟨{ tid := c.nextId, key := k, fireTime := now + ttl, cancelled := false }, ?_, rfl, ht, rfl⟩
    rw [hpend]
    exact List.mem_append_right _ (List.mem_singleton_self _)
  have hc : ((c.set now k v ttl).set now2 k v2 ttl2).get k = v2 := by
    simp [SimpleCache.set, SimpleCache.get, lookupA_setAssoc_self, hv2]
  have hd1 : (c.set now k v ttl).activeTimersFor k = 1 := by
    simp only [SimpleCache.activeTimersFor]
    rw [hpend, List.filter_append, filter_key_nil c.pending k hk]
    simp
  have hkmap : ∀ p ∈ c.pending.map (fun p =>
      if p.tid = c.nextId then { p with cancelled := true } else p), p.key ≠ k := by
    intro p hp
    rcases List.mem_map.mp hp with ⟨q, hq, rfl⟩
    by_cases hq2 : q.tid = c.nextId <;> simp [hq2] <;> exact hk q hq
  have hd2 : ((c.set now k v ttl).set now2 k v2 ttl2).activeTimersFor k = 1 := by
    simp only [SimpleCache.activeTimersFor]
    rw [hpend2, List.filter_append, List.filter_append,
      filter_key_nil _ k hkmap]
    simp
  have he : ∀ p ∈ ((c.set now k v ttl).set now2 k v2 ttl2).pending.filter
      (fun p => !p.cancelled && decide (p.fireTime ≤ now + ttl)), p.key ≠ k := by
    intro p hp
    rw [List.mem_filter] at hp
    obtain ⟨hpm, hpd⟩ := hp
    rw [hpend2] at hpm
    rcases List.mem_append.mp hpm with hpm | hpm
    · rcases List.mem_append.mp hpm with hpm | hpm
      · exact hkmap p hpm
      · rw [List.mem_singleton] at hpm
        subst hpm
        simp at hpd
    · rw [List.mem_singleton] at hpm
      subst hpm
      simp at hpd
      omega
  have hfe : (((c.set now k v ttl).set now2 k v2 ttl2).runTimersUpTo (now + ttl)).get k =
      ((c.set now k v ttl).set now2 k v2 ttl2).get k := by
    simp only [SimpleCache.runTimersUpTo, SimpleCache.get]
    rw [foldl_fire_keep _ _ _ he]
  exact ⟨ha, hb, hc, hd1, hd2, hfe.trans hc⟩

/-- C9 witness: a concrete run — set at t=0 with ttl 100, overwrite at
t=50 with ttl 100, read back, and advance the clock. -/
theorem C9_amended_witness :
    (emptySimpleCache.set 0 "k" (JSVal.strV "a") 100).get "k" = JSVal.strV "a" ∧
    ((emptySimpleCache.set 0 "k" (JSVal.strV "a") 100).runTimersUpTo 100).get "k" =
      JSVal.null ∧
    ((emptySimpleCache.set 0 "k" (JSVal.strV "a") 100).set 50 "k" (JSVal.strV "b") 100).get "k"
      = JSVal.strV "b" ∧
    (emptySimpleCache.set 0 "k" (JSVal.strV "a") 100).activeTimersFor "k" = 1 ∧
    ((emptySimpleCache.set 0 "k" (JSVal.strV "a") 100).set 50 "k"
      (JSVal.strV "b") 100).activeTimersFor "k" = 1 ∧
    (((emptySimpleCache.set 0 "k" (JSVal.strV "a") 100).set 50 "k"
      (JSVal.strV "b") 100).runTimersUpTo 100).get "k" = JSVal.strV "b" :=
  C9_amended emptySimpleCache "k" (JSVal.strV "a") (JSVal.strV "b") 0 100 50 100 100
    (by decide) (by decide) (by decide) (by decide) (by decide) (by decide) (by decide)

end DigisacBridge
